import Mathlib

/-!
Shallow embedding of `app.py` (PassInsight): the breach checker
`check_pwned_api`, the entropy estimator `calculate_entropy`, the strength
scorer behind `POST /analyze`, and the password generator behind
`POST /generate`.  Python strings are modelled by Lean `String`/`List Char`
(the inputs considered throughout are ASCII, on which Python's
Unicode-aware `str.islower`/`isupper`/`isdigit` coincide with the ASCII
predicates below); Python `int` is modelled by `Int` (`Nat` where the value
is a priori non-negative); the remote HTTP response and the random source
are explicit parameters; Python exceptions are modelled by `Except`.
-/

namespace PassInsight

/-! ### Character classes (Python `str` predicates and `string` constants) -/

/-- Python `c.islower()` restricted to ASCII: `'a' ≤ c ≤ 'z'`. -/
def pyIsLower (c : Char) : Bool := 97 ≤ c.toNat && c.toNat ≤ 122

/-- Python `c.isupper()` restricted to ASCII: `'A' ≤ c ≤ 'Z'`. -/
def pyIsUpper (c : Char) : Bool := 65 ≤ c.toNat && c.toNat ≤ 90

/-- Python `c.isdigit()` restricted to ASCII: `'0' ≤ c ≤ '9'`. -/
def pyIsDigit (c : Char) : Bool := 48 ≤ c.toNat && c.toNat ≤ 57

/-- Membership in Python `string.punctuation` by ASCII code: the 32
characters at codes 33–47, 58–64, 91–96 and 123–126. -/
def isPunctCode (n : Nat) : Bool :=
  (33 ≤ n && n ≤ 47) || (58 ≤ n && n ≤ 64) || (91 ≤ n && n ≤ 96) ||
    (123 ≤ n && n ≤ 126)

/-- Python `c in string.punctuation`. -/
def pyIsPunct (c : Char) : Bool := isPunctCode c.toNat

/-- Python `string.punctuation` as a list of characters (codes 33–47,
58–64, 91–96, 123–126, in ascending order, exactly the order of the CPython
constant). -/
def punctuationChars : List Char :=
  ((List.range 128).filter isPunctCode).map Char.ofNat

/-- Python `string.ascii_lowercase`. -/
def asciiLowercase : List Char := "abcdefghijklmnopqrstuvwxyz".data

/-- Python `string.ascii_uppercase`. -/
def asciiUppercase : List Char := "ABCDEFGHIJKLMNOPQRSTUVWXYZ".data

/-- Python `string.digits`. -/
def digitChars : List Char := "0123456789".data

/-! ### SHA-1 (`hashlib.sha1`), over byte lists, all arithmetic mod `2^32` -/

/-- UTF-8 encoding of one character (Python `str.encode('utf-8')`,
per code point). -/
def utf8Bytes (c : Char) : List Nat :=
  let n := c.toNat
  if n < 128 then [n]
  else if n < 2048 then [192 + n / 64, 128 + n % 64]
  else if n < 65536 then [224 + n / 4096, 128 + n / 64 % 64, 128 + n % 64]
  else [240 + n / 262144, 128 + n / 4096 % 64, 128 + n / 64 % 64, 128 + n % 64]

/-- UTF-8 bytes of a string. -/
def strBytes (s : String) : List Nat := s.data.flatMap utf8Bytes

/-- Left-rotation of a 32-bit word. -/
def rotl32 (x n : Nat) : Nat :=
  ((x <<< n) % 4294967296) ||| (x >>> (32 - n))

/-- SHA-1 padding: append `0x80`, zero bytes to 56 mod 64, then the
64-bit big-endian bit length. -/
def sha1pad (msg : List Nat) : List Nat :=
  let z := (120 - (msg.length + 1) % 64) % 64
  msg ++ [128] ++ List.replicate z 0 ++
    (List.range 8).map fun i => (8 * msg.length) >>> (8 * (7 - i)) % 256

/-- Split a (padded) byte list into 64-byte blocks; `fuel` is the number
of blocks, kept structural so the kernel can evaluate it. -/
def sha1chunks : Nat → List Nat → List (List Nat)
  | 0, _ => []
  | n + 1, l => l.take 64 :: sha1chunks n (l.drop 64)

/-- Big-endian 4-byte groups to 32-bit words. -/
def bytesToWords : List Nat → List Nat
  | a :: b :: c :: d :: rest => (((a * 256 + b) * 256 + c) * 256 + d) :: bytesToWords rest
  | _ => []

/-- Extend the 16 message-schedule words to 80:
`w[i] = rotl1 (w[i-3] xor w[i-8] xor w[i-14] xor w[i-16])`. -/
def sha1extend (w : Array Nat) : Nat → Array Nat
  | 0 => w
  | n + 1 =>
    let i := w.size
    sha1extend (w.push (rotl32 (w.getD (i - 3) 0 ^^^ w.getD (i - 8) 0 ^^^
      w.getD (i - 14) 0 ^^^ w.getD (i - 16) 0) 1)) n

/-- One of the 80 SHA-1 rounds. -/
def sha1round (st : Nat × Nat × Nat × Nat × Nat) (i wi : Nat) :
    Nat × Nat × Nat × Nat × Nat :=
  let (a, b, c, d, e) := st
  let f :=
    if i < 20 then (b &&& c) ||| ((4294967295 - b) &&& d)
    else if i < 40 then b ^^^ c ^^^ d
    else if i < 60 then (b &&& c) ||| (b &&& d) ||| (c &&& d)
    else b ^^^ c ^^^ d
  let k :=
    if i < 20 then 1518500249
    else if i < 40 then 1859775393
    else if i < 60 then 2400959708
    else 3395469782
  let temp := (rotl32 a 5 + f + e + k + wi) % 4294967296
  (temp, a, rotl32 b 30, c, d)

/-- Process one 64-byte block. -/
def sha1block (h : Nat × Nat × Nat × Nat × Nat) (blk : List Nat) :
    Nat × Nat × Nat × Nat × Nat :=
  let w := sha1extend (Array.mk (bytesToWords blk)) 64
  let (a, b, c, d, e) :=
    (List.range 80).foldl (fun st i => sha1round st i (w.getD i 0)) h
  let (h0, h1, h2, h3, h4) := h
  ((h0 + a) % 4294967296, (h1 + b) % 4294967296, (h2 + c) % 4294967296,
    (h3 + d) % 4294967296, (h4 + e) % 4294967296)

/-- SHA-1 digest of a byte list, as the five 32-bit state words. -/
def sha1words (msg : List Nat) : Nat × Nat × Nat × Nat × Nat :=
  let padded := sha1pad msg
  (sha1chunks (padded.length / 64) padded).foldl sha1block
    (1732584193, 4023233417, 2562383102, 271733878, 3285377520)

/-- One uppercase hexadecimal digit. -/
def hexDigit (n : Nat) : Char :=
  if n < 10 then Char.ofNat (48 + n) else Char.ofNat (55 + n)

/-- A 32-bit word as 8 uppercase hexadecimal characters. -/
def wordHex (x : Nat) : List Char :=
  (List.range 8).map fun i => hexDigit (x >>> (4 * (7 - i)) % 16)

/-- `hashlib.sha1(password.encode('utf-8')).hexdigest().upper()`:
the 40 uppercase hex characters of the SHA-1 digest. -/
def sha1hex (password : String) : String :=
  let (h0, h1, h2, h3, h4) := sha1words (strBytes password)
  String.mk (wordHex h0 ++ wordHex h1 ++ wordHex h2 ++ wordHex h3 ++ wordHex h4)

/-! ### `check_pwned_api` -/

/-- Outcome of `requests.get(url, timeout=5)`: either a raised
`requests.RequestException` (transport failure or timeout), or a response
with a status code and a text body. -/
inductive HttpResult where
  | exc
  | resp (status : Nat) (body : String)
deriving DecidableEq

/-- A Python exception escaping the modelled code (the only kind the
embedded fragment can raise is `ValueError`). -/
inductive PyError where
  | valueError (msg : String)
deriving DecidableEq

/-- The ASCII line boundaries of Python `str.splitlines`: `\n`, `\v`,
`\f`, `\r`, `\x1c`, `\x1d`, `\x1e` (codes 10–13 and 28–30; the remaining
CPython boundaries, `\x85` and U+2028/U+2029, are not ASCII and cannot
occur in an ASCII body). -/
def pyIsLineBreak (c : Char) : Bool :=
  c = '\n' || c = '\x0b' || c = '\x0c' || c = '\r' ||
    c = '\x1c' || c = '\x1d' || c = '\x1e'

/-- Python `text.splitlines()` over ASCII text: each character satisfying
`pyIsLineBreak` ends a line, the pair `\r\n` counts as one boundary, and a
trailing break does not open an empty final line. -/
def pySplitlines : List Char → List (List Char)
  | [] => []
  | '\r' :: '\n' :: rest => [] :: pySplitlines rest
  | c :: rest =>
    if pyIsLineBreak c then [] :: pySplitlines rest
    else
      match pySplitlines rest with
      | [] => [[c]]
      | g :: gs => (c :: g) :: gs

/-- Python `line.split(':')`. -/
def splitOnColon : List Char → List (List Char)
  | [] => [[]]
  | ':' :: rest => [] :: splitOnColon rest
  | c :: rest =>
    match splitOnColon rest with
    | [] => [[c]]
    | g :: gs => (c :: g) :: gs

/-- ASCII whitespace accepted (and stripped) by Python `int(str)`. -/
def pyIsSpace (c : Char) : Bool :=
  c = ' ' || c = '\t' || c = '\n' || c = '\r' || c = '\x0b' || c = '\x0c'

/-- Digit run of a Python integer literal, with CPython's underscore rule:
an underscore must sit between two digits.  The accumulator holds the value
of the digits consumed so far. -/
def pyDigitsAux (acc : Nat) : List Char → Option Nat
  | [] => some acc
  | '_' :: c :: rest =>
    if pyIsDigit c then pyDigitsAux (acc * 10 + (c.toNat - 48)) rest else none
  | ['_'] => none
  | c :: rest =>
    if pyIsDigit c then pyDigitsAux (acc * 10 + (c.toNat - 48)) rest else none

/-- Nonempty digit run (first character must be a digit). -/
def pyDigits : List Char → Option Nat
  | c :: rest => if pyIsDigit c then pyDigitsAux (c.toNat - 48) rest else none
  | [] => none

/-- Python `int(s)` for base 10: strip whitespace, optional sign, digits
(with underscores between digits); `none` models the raised `ValueError`. -/
def pyInt (s : List Char) : Option Int :=
  match (s.dropWhile pyIsSpace).reverse.dropWhile pyIsSpace |>.reverse with
  | '+' :: rest => (pyDigits rest).map Int.ofNat
  | '-' :: rest => (pyDigits rest).map fun n => -(n : Int)
  | rest => (pyDigits rest).map Int.ofNat

/-- The `ValueError` message raised by `h, count = parts` when `parts` does
not have exactly two elements. -/
def unpackError (got : Nat) : PyError :=
  if got < 2 then
    .valueError ("not enough values to unpack (expected 2, got " ++ toString got ++ ")")
  else .valueError "too many values to unpack (expected 2)"

/-- The loop `for h, count in hashes: if h == tail: return True, int(count)`
over the already-split lines of a 200 response body.  Each line is split at
`:`; a line that does not split into exactly two fields raises `ValueError`
(tuple unpacking), as does `int(count)` on a non-numeric count of the
matching line — neither is a `requests.RequestException`, so neither is
caught by `check_pwned_api`. -/
def scanHashes (tail : List Char) : List (List Char) → Except PyError (Bool × Int)
  | [] => .ok (false, 0)
  | line :: rest =>
    match splitOnColon line with
    | [h, count] =>
      if h = tail then
        match pyInt count with
        | some n => .ok (true, n)
        | none =>
          .error (.valueError ("invalid literal for int() with base 10: " ++
            String.mk count))
      else scanHashes tail rest
    | parts => .error (unpackError parts.length)

/-- The URL of the outbound GET issued by `check_pwned_api`:
`f'https://api.pwnedpasswords.com/range/{head}'` where
`head = sha1password[:5]`. -/
def pwnedUrl (password : String) : String :=
  String.mk ("https://api.pwnedpasswords.com/range/".data ++
    (sha1hex password).data.take 5)

/-- `check_pwned_api(password)` given the outcome `resp` of the GET to
`pwnedUrl password`.  The `try` block catches only
`requests.RequestException` (modelled by `HttpResult.exc`); a `ValueError`
raised while scanning the body propagates to the caller as `.error`. -/
def check_pwned_api (password : String) (resp : HttpResult) :
    Except PyError (Bool × Int) :=
  match resp with
  | .exc => .ok (false, 0)
  | .resp status body =>
    if status ≠ 200 then .ok (false, 0)
    else scanHashes ((sha1hex password).data.drop 5) (pySplitlines body.data)

/-- A response line is well formed when it splits at `:` into exactly two
fields and the count field parses as a Python integer. -/
def lineWellFormed (line : List Char) : Bool :=
  match splitOnColon line with
  | [_, count] => (pyInt count).isSome
  | _ => false

/-- Sufficient well-formedness of a response body for the scan never to
raise: every line is well formed. -/
def bodyOk (body : String) : Bool :=
  (pySplitlines body.data).all lineWellFormed

/-! ### `calculate_entropy` and the `/analyze` scorer -/

/-- The character pool size accumulated by `calculate_entropy`:
`pool += 26` if any lowercase, `+= 26` if any uppercase, `+= 10` if any
digit, `+= len(string.punctuation)` if any punctuation character. -/
def poolSize (password : String) : Nat :=
  (if password.data.any pyIsLower then 26 else 0) +
    (if password.data.any pyIsUpper then 26 else 0) +
    (if password.data.any pyIsDigit then 10 else 0) +
    (if password.data.any pyIsPunct then punctuationChars.length else 0)

/-- `calculate_entropy(password)`: `0` if the pool is empty, otherwise
`len(password) * math.log2(pool)`.  The Python float computation is
modelled exactly over `ℝ`; for every reachable pool size and length the
float comparisons against the thresholds 80 and 50 agree with the real
ones (the closest attainable values, e.g. `17·log2 26 ≈ 79.91` and
`10·log2 32 = 50` exactly, are far beyond double rounding error). -/
noncomputable def calculate_entropy (password : String) : ℝ :=
  if poolSize password = 0 then 0
  else (password.length : ℝ) * Real.logb 2 (poolSize password)

/-- The entropy bonus of the scorer — `+15` if `entropy > 80`, `+5` if
`entropy > 50` — in the exact integer form
`len·log2 pool > c  ↔  pool^len > 2^c` (see `entropyBonus_spec`), so the
scorer stays kernel-computable. -/
def entropyBonus (password : String) : Int :=
  if 2 ^ 80 < poolSize password ^ password.length then 15
  else if 2 ^ 50 < poolSize password ^ password.length then 5
  else 0

/-- The JSON object returned by `/analyze`.  `entropy` is held unrounded;
the route applies `round(entropy, 2)` only for display. -/
structure Report where
  score : Int
  level : String
  entropy : ℝ
  breached : Bool
  breach_count : Int
  suggestions : List String

/-- The report of the empty-password short-circuit (lines 55–59). -/
def emptyReport : Report :=
  { score := 0, level := "Empty", entropy := 0, breached := false,
    breach_count := 0, suggestions := [] }

/-- Lines 64–88 of `analyze`: the additive score and the appended
suggestions before the breach override, accumulated in source order
(length rule, then lowercase, uppercase, digits, punctuation, then the
entropy bonus). -/
def baseScore (password : String) : Int × List String :=
  let s0 : Int × List String :=
    if password.length < 8 then
      (0, ["Increase password length to at least 12 characters."])
    else if password.length < 12 then
      (15, ["Consider making the password even longer (12+ chars) for better security."])
    else (25, [])
  let s1 :=
    if password.data.any pyIsLower then (s0.1 + 15, s0.2)
    else (s0.1, s0.2 ++ ["Add lowercase letters."])
  let s2 :=
    if password.data.any pyIsUpper then (s1.1 + 15, s1.2)
    else (s1.1, s1.2 ++ ["Add uppercase letters."])
  let s3 :=
    if password.data.any pyIsDigit then (s2.1 + 15, s2.2)
    else (s2.1, s2.2 ++ ["Add numbers."])
  let s4 :=
    if password.data.any pyIsPunct then (s3.1 + 15, s3.2)
    else (s3.1, s3.2 ++ ["Add special characters (e.g., !@#$%)."])
  (s4.1 + entropyBonus password, s4.2)

/-- The suggestion inserted at position 0 when the password is breached:
`f"DANGER: Password found in {count} data breaches! Do not use this."`. -/
def breachWarning (count : Int) : String :=
  "DANGER: Password found in " ++ toString count ++ " data breaches! Do not use this."

/-- Lines 64–107 of `analyze`: the report built for a non-empty password
from the result `(breached, count)` of `check_pwned_api`. -/
noncomputable def scoreReport (password : String) (breached : Bool) (count : Int) :
    Report :=
  let base := baseScore password
  let capped := if breached then min base.1 20 else base.1
  let suggestions := if breached then breachWarning count :: base.2 else base.2
  let score := max 0 (min 100 capped)
  let level :=
    if score < 40 then "Weak" else if score < 75 then "Moderate" else "Strong"
  { score := score, level := level, entropy := calculate_entropy password,
    breached := breached, breach_count := count, suggestions := suggestions }

/-- The `/analyze` route body: the empty-password short-circuit, then
`check_pwned_api` (whose `ValueError` would propagate), then the scoring
rubric. -/
noncomputable def analyze (password : String) (resp : HttpResult) :
    Except PyError Report :=
  if password = "" then .ok emptyReport
  else (check_pwned_api password resp).map fun bc => scoreReport password bc.1 bc.2

/-! ### `/generate`

Randomness is an explicit stream `rand : Nat → Nat`: the `k`-th draw made
by the route (every `secrets.choice` and every `_randbelow` of
`random.SystemRandom().shuffle`, in execution order) selects with the value
`rand k`.  `secrets.choice(seq)` returns `seq[rand k % len seq]` — every
choice the CSPRNG can make is some `rand`. -/

/-- The request parameters of `POST /generate` after JSON extraction
(`length` already through Python `int(...)`). -/
structure GenConfig where
  length : Int
  uppercase : Bool
  lowercase : Bool
  numbers : Bool
  symbols : Bool

/-- The JSON error response `({"error": msg}, 400)`. -/
structure ApiError where
  error : String
  status : Nat
deriving DecidableEq

/-- Line 118: `length = max(8, min(128, length))`. -/
def clampedLength (cfg : GenConfig) : Int := max 8 (min 128 cfg.length)

/-- `secrets.choice(seq)` with draw value `r`: the element at `r % len`. -/
def choiceFrom (seq : List Char) (r : Nat) : Char := seq.getD (r % seq.length) ' '

/-- Lines 123–137: the concatenated pool of the selected classes, in the
source order lowercase, uppercase, digits, symbols. -/
def poolChars (cfg : GenConfig) : List Char :=
  (if cfg.lowercase then asciiLowercase else []) ++
    (if cfg.uppercase then asciiUppercase else []) ++
    (if cfg.numbers then digitChars else []) ++
    (if cfg.symbols then punctuationChars else [])

/-- Lines 123–137: `req_chars`, one `secrets.choice` per selected class in
source order; the class at position `p` among the selected ones consumes
draw `rand p`. -/
def reqChars (cfg : GenConfig) (rand : Nat → Nat) : List Char :=
  let i1 : Nat := if cfg.lowercase then 1 else 0
  let i2 : Nat := i1 + (if cfg.uppercase then 1 else 0)
  let i3 : Nat := i2 + (if cfg.numbers then 1 else 0)
  (if cfg.lowercase then [choiceFrom asciiLowercase (rand 0)] else []) ++
    (if cfg.uppercase then [choiceFrom asciiUppercase (rand i1)] else []) ++
    (if cfg.numbers then [choiceFrom digitChars (rand i2)] else []) ++
    (if cfg.symbols then [choiceFrom punctuationChars (rand i3)] else [])

/-- Line 139: `remaining_length = length - len(req_chars)`. -/
def remainingLength (cfg : GenConfig) (rand : Nat → Nat) : Int :=
  clampedLength cfg - (reqChars cfg rand).length

/-- Line 145: the `remaining_length` fill draws from the union pool,
consuming draws `rand k, …, rand (k+n-1)`. -/
def fillChars (pool : List Char) (rand : Nat → Nat) (k n : Nat) : List Char :=
  (List.range n).map fun i => choiceFrom pool (rand (k + i))

/-- Swap two positions of a list (CPython `x[i], x[j] = x[j], x[i]`);
identity when an index is out of range (never the case in the shuffle). -/
def listSwap (l : List Char) (i j : Nat) : List Char :=
  match l[i]?, l[j]? with
  | some a, some b => (l.set i b).set j a
  | _, _ => l

/-- The loop of CPython `random.shuffle`: for `i = fuel, …, 1` (descending)
swap position `i` with position `_randbelow(i+1)`, one draw per step. -/
def fisherYatesAux (rand : Nat → Nat) (k : Nat) (l : List Char) : Nat → List Char
  | 0 => l
  | i + 1 => fisherYatesAux rand (k + 1) (listSwap l (i + 1) (rand k % (i + 2))) i

/-- `random.SystemRandom().shuffle(x)` with draws starting at `rand k`. -/
def fisherYates (rand : Nat → Nat) (k : Nat) (l : List Char) : List Char :=
  fisherYatesAux rand k l (l.length - 1)

/-- The `/generate` route body (lines 109–151): clamp, reject an empty
class selection with a 400 error, draw one mandatory character per class,
truncate or fill, shuffle, join. -/
def generate (cfg : GenConfig) (rand : Nat → Nat) : Except ApiError String :=
  if !(cfg.uppercase || cfg.lowercase || cfg.numbers || cfg.symbols) then
    .error { error := "Select at least one character type", status := 400 }
  else
    let req := reqChars cfg rand
    let remaining := remainingLength cfg rand
    if remaining < 0 then
      .ok (String.mk (fisherYates rand req.length (req.take (clampedLength cfg).toNat)))
    else
      .ok (String.mk (fisherYates rand (req.length + remaining.toNat)
        (req ++ fillChars (poolChars cfg) rand req.length remaining.toNat)))

/-! ### Spec-side entropy definitions (for the refinement claim)

These two definitions follow the words of the specification, not the
source, and exist only to be compared with `calculate_entropy`. -/

/-- The spec's pool: "pool size = sum of class sizes present in the
password (lowercase 26, uppercase 26, digits 10, symbols = size of the
defined punctuation set, e.g. 32)". -/
def specPoolSize (password : String) : Nat :=
  (if password.data.any pyIsLower then 26 else 0) +
    (if password.data.any pyIsUpper then 26 else 0) +
    (if password.data.any pyIsDigit then 10 else 0) +
    (if password.data.any pyIsPunct then 32 else 0)

/-- The spec's entropy: "If pool is 0 ... entropy = 0; else
entropy = length × log2(pool)". -/
noncomputable def specEntropy (password : String) : ℝ :=
  if specPoolSize password = 0 then 0
  else (password.length : ℝ) * Real.logb 2 (specPoolSize password)

/-! ### Supporting lemmas -/

theorem punctuationChars_length : punctuationChars.length = 32 := by decide

/-! ### Supporting lemma: the scan of a well-formed body never raises -/

theorem scanHashes_ok (tail : List Char) :
    ∀ lines : List (List Char), lines.all lineWellFormed = true →
      (scanHashes tail lines).isOk = true := by
  intro lines
  induction lines with
  | nil => intro _; rfl
  | cons line rest ih =>
    intro hall
    rw [List.all_cons, Bool.and_eq_true] at hall
    obtain ⟨hline, hrest⟩ := hall
    unfold lineWellFormed at hline
    unfold scanHashes
    cases hsp : splitOnColon line with
    | nil => rw [hsp] at hline; simp at hline
    | cons h1 parts =>
      cases parts with
      | nil => rw [hsp] at hline; simp at hline
      | cons count rest2 =>
        cases rest2 with
        | nil =>
          rw [hsp] at hline
          dsimp only at hline ⊢
          by_cases heq : h1 = tail
          · rw [if_pos heq]
            cases hpi : pyInt count with
            | none => rw [hpi] at hline; simp at hline
            | some n => rfl
          · rw [if_neg heq]
            exact ih hrest
        | cons c3 rest3 => rw [hsp] at hline; simp at hline

/-! ### Supporting lemmas: the shuffle is a permutation -/

theorem perm_headSet : ∀ (xs : List Char) (m : Nat) (x : Char) (h : m < xs.length),
    (xs[m] :: xs.set m x).Perm (x :: xs)
  | y :: ys, 0, x, _ => by
    simpa using List.Perm.swap x y ys
  | y :: ys, m + 1, x, h => by
    have hm : m < ys.length := by simpa using h
    simp only [List.getElem_cons_succ, List.set_cons_succ]
    refine List.Perm.trans (List.Perm.swap y ys[m] (ys.set m x)) ?_
    refine List.Perm.trans ((perm_headSet ys m x hm).cons y) ?_
    exact List.Perm.swap x y ys

theorem perm_set_set : ∀ (l : List Char) (i j : Nat) (a b : Char),
    l[i]? = some a → l[j]? = some b → ((l.set i b).set j a).Perm l
  | [], i, _, _, _, h1, _ => by simp at h1
  | y :: ys, 0, 0, a, b, h1, h2 => by
    simp only [List.getElem?_cons_zero, Option.some.injEq] at h1 h2
    subst h1; subst h2
    simp
  | y :: ys, 0, n + 1, a, b, h1, h2 => by
    simp only [List.getElem?_cons_zero, Option.some.injEq,
      List.getElem?_cons_succ] at h1 h2
    subst h1
    obtain ⟨hn, hb⟩ := List.getElem?_eq_some_iff.mp h2
    subst hb
    simp only [List.set_cons_zero, List.set_cons_succ]
    exact perm_headSet ys n y hn
  | y :: ys, m + 1, 0, a, b, h1, h2 => by
    simp only [List.getElem?_cons_zero, Option.some.injEq,
      List.getElem?_cons_succ] at h1 h2
    subst h2
    obtain ⟨hm, ha⟩ := List.getElem?_eq_some_iff.mp h1
    subst ha
    simp only [List.set_cons_zero, List.set_cons_succ]
    exact perm_headSet ys m y hm
  | y :: ys, m + 1, n + 1, a, b, h1, h2 => by
    simp only [List.getElem?_cons_succ] at h1 h2
    simp only [List.set_cons_succ]
    exact (perm_set_set ys m n a b h1 h2).cons y

/-- A swap is a permutation (also in the out-of-range identity cases). -/
theorem perm_listSwap (l : List Char) (i j : Nat) : (listSwap l i j).Perm l := by
  unfold listSwap
  cases h1 : l[i]? with
  | none => cases l[j]? <;> exact List.Perm.refl l
  | some a =>
    cases h2 : l[j]? with
    | none => exact List.Perm.refl l
    | some b => exact perm_set_set l i j a b h1 h2

theorem perm_fisherYatesAux :
    ∀ (n : Nat) (rand : Nat → Nat) (k : Nat) (l : List Char),
      (fisherYatesAux rand k l n).Perm l
  | 0, _, _, l => List.Perm.refl l
  | n + 1, rand, k, l =>
    (perm_fisherYatesAux n rand (k + 1) _).trans
      (perm_listSwap l (n + 1) (rand k % (n + 2)))

/-- The modelled `random.SystemRandom().shuffle` permutes its input. -/
theorem perm_fisherYates (rand : Nat → Nat) (k : Nat) (l : List Char) :
    (fisherYates rand k l).Perm l :=
  perm_fisherYatesAux (l.length - 1) rand k l

/-- A permutation preserves `List.any`. -/
theorem perm_any {l1 l2 : List Char} (h : l1.Perm l2) (p : Char → Bool) :
    l1.any p = l2.any p := by
  cases ha : l2.any p with
  | false =>
    rw [List.any_eq_false] at ha ⊢
    exact fun x hx => ha x (h.mem_iff.mp hx)
  | true =>
    rw [List.any_eq_true] at ha ⊢
    obtain ⟨x, hx, hp⟩ := ha
    exact ⟨x, h.mem_iff.mpr hx, hp⟩

/-- `secrets.choice` from a nonempty list all of whose members satisfy `P`
yields a `P`-character. -/
theorem choiceFrom_all {seq : List Char} (P : Char → Bool) (hne : seq ≠ [])
    (hall : seq.all P = true) (r : Nat) : P (choiceFrom seq r) = true := by
  unfold choiceFrom
  have hlen : 0 < seq.length := List.length_pos.mpr hne
  have hlt : r % seq.length < seq.length := Nat.mod_lt _ hlen
  rw [List.getD_eq_getElem?_getD, List.getElem?_eq_getElem hlt]
  exact List.all_eq_true.mp hall _ (seq.getElem_mem hlt)

/-! ### Supporting lemmas: structure of `generate` -/

theorem reqChars_length_le (cfg : GenConfig) (rand : Nat → Nat) :
    (reqChars cfg rand).length ≤ 4 := by
  unfold reqChars
  cases cfg.lowercase <;> cases cfg.uppercase <;> cases cfg.numbers <;>
    cases cfg.symbols <;> simp

theorem clampedLength_bounds (cfg : GenConfig) :
    8 ≤ clampedLength cfg ∧ clampedLength cfg ≤ 128 := by
  unfold clampedLength
  constructor
  · exact le_max_left 8 _
  · exact max_le (by norm_num) (min_le_left 128 _)

theorem remainingLength_nonneg (cfg : GenConfig) (rand : Nat → Nat) :
    0 ≤ remainingLength cfg rand := by
  have h1 := reqChars_length_le cfg rand
  have h2 := (clampedLength_bounds cfg).1
  unfold remainingLength
  omega

theorem fillChars_length (pool : List Char) (rand : Nat → Nat) (k n : Nat) :
    (fillChars pool rand k n).length = n := by
  unfold fillChars
  simp

/-- With at least one class selected, `generate` takes the fill branch and
returns the shuffled mandatory-plus-fill characters. -/
theorem generate_eq_fill (cfg : GenConfig) (rand : Nat → Nat)
    (hflag : (cfg.uppercase || cfg.lowercase || cfg.numbers || cfg.symbols) = true) :
    generate cfg rand = .ok (String.mk (fisherYates rand
      ((reqChars cfg rand).length + (remainingLength cfg rand).toNat)
      (reqChars cfg rand ++ fillChars (poolChars cfg) rand
        (reqChars cfg rand).length (remainingLength cfg rand).toNat))) := by
  unfold generate
  rw [hflag]
  simp only [Bool.not_true, Bool.false_eq_true, if_false]
  rw [if_neg (not_lt.mpr (remainingLength_nonneg cfg rand))]

/-- The characters of a generated password are a permutation of the
mandatory characters followed by the fill. -/
theorem generate_chars_perm (cfg : GenConfig) (rand : Nat → Nat) (s : String)
    (h : generate cfg rand = .ok s)
    (hflag : (cfg.uppercase || cfg.lowercase || cfg.numbers || cfg.symbols) = true) :
    s.data.Perm (reqChars cfg rand ++ fillChars (poolChars cfg) rand
      (reqChars cfg rand).length (remainingLength cfg rand).toNat) := by
  rw [generate_eq_fill cfg rand hflag] at h
  cases h
  exact perm_fisherYates _ _ _

theorem generate_data_length (cfg : GenConfig) (rand : Nat → Nat) (s : String)
    (h : generate cfg rand = .ok s)
    (hflag : (cfg.uppercase || cfg.lowercase || cfg.numbers || cfg.symbols) = true) :
    s.data.length = (clampedLength cfg).toNat := by
  have hp := (generate_chars_perm cfg rand s h hflag).length_eq
  rw [List.length_append, fillChars_length] at hp
  have h0 := remainingLength_nonneg cfg rand
  have h1 := reqChars_length_le cfg rand
  have h2 := (clampedLength_bounds cfg).1
  unfold remainingLength at hp h0
  omega

theorem generate_any_of_req (cfg : GenConfig) (rand : Nat → Nat) (s : String)
    (h : generate cfg rand = .ok s)
    (hflag : (cfg.uppercase || cfg.lowercase || cfg.numbers || cfg.symbols) = true)
    (P : Char → Bool) (hreq : (reqChars cfg rand).any P = true) :
    s.data.any P = true := by
  rw [perm_any (generate_chars_perm cfg rand s h hflag) P, List.any_append, hreq]
  rfl

theorem reqChars_any_lower (cfg : GenConfig) (rand : Nat → Nat)
    (h : cfg.lowercase = true) : (reqChars cfg rand).any pyIsLower = true := by
  unfold reqChars
  rw [h]
  simp only [if_true, List.any_append, List.any_cons, List.any_nil]
  rw [choiceFrom_all pyIsLower (by decide) (by decide)]
  rfl

theorem reqChars_any_upper (cfg : GenConfig) (rand : Nat → Nat)
    (h : cfg.uppercase = true) : (reqChars cfg rand).any pyIsUpper = true := by
  unfold reqChars
  rw [h]
  simp only [if_true, List.any_append, List.any_cons, List.any_nil]
  rw [choiceFrom_all pyIsUpper (by decide) (by decide)]
  simp

theorem reqChars_any_digit (cfg : GenConfig) (rand : Nat → Nat)
    (h : cfg.numbers = true) : (reqChars cfg rand).any pyIsDigit = true := by
  unfold reqChars
  rw [h]
  simp only [if_true, List.any_append, List.any_cons, List.any_nil]
  rw [choiceFrom_all pyIsDigit (by decide) (by decide)]
  simp

theorem reqChars_any_punct (cfg : GenConfig) (rand : Nat → Nat)
    (h : cfg.symbols = true) : (reqChars cfg rand).any pyIsPunct = true := by
  unfold reqChars
  rw [h]
  simp only [if_true, List.any_append, List.any_cons, List.any_nil]
  rw [choiceFrom_all pyIsPunct (by decide) (by decide)]
  simp

/-! ### Supporting lemma: the integer entropy comparisons are exact -/

/-- The kernel-computable comparisons used in `entropyBonus` agree with the
real-valued comparisons `calculate_entropy password > 80` / `> 50` of the
source. -/
theorem entropyBonus_spec (password : String) :
    entropyBonus password =
      if 80 < calculate_entropy password then 15
      else if 50 < calculate_entropy password then 5 else 0 := by
  unfold entropyBonus calculate_entropy
  by_cases h0 : poolSize password = 0
  · rw [h0]
    have hle : ∀ L : Nat, 0 ^ L ≤ 1 := by
      intro L
      cases L with
      | zero => simp
      | succ n => simp [Nat.zero_pow]
    rw [if_neg (by have := hle password.length; omega),
      if_neg (by have := hle password.length; omega), if_pos rfl]
    norm_num
  · have hp1 : 1 ≤ poolSize password := Nat.one_le_iff_ne_zero.mpr h0
    have key : ∀ c : Nat, (2 ^ c < poolSize password ^ password.length ↔
        (c : ℝ) < (password.length : ℝ) * Real.logb 2 (poolSize password)) := by
      intro c
      rw [← Real.logb_pow 2 (poolSize password : ℝ) password.length,
        Real.lt_logb_iff_rpow_lt (by norm_num) (by positivity),
        Real.rpow_natCast 2 c]
      constructor <;> intro h <;> exact_mod_cast h
    have k80 : (2 ^ 80 < poolSize password ^ password.length ↔
        (80 : ℝ) < (password.length : ℝ) * Real.logb 2 (poolSize password)) := by
      simpa using key 80
    have k50 : (2 ^ 50 < poolSize password ^ password.length ↔
        (50 : ℝ) < (password.length : ℝ) * Real.logb 2 (poolSize password)) := by
      simpa using key 50
    rw [if_neg h0]
    by_cases h80 : 2 ^ 80 < poolSize password ^ password.length
    · rw [if_pos h80, if_pos (k80.mp h80)]
    · rw [if_neg h80, if_neg (fun hc => h80 (k80.mpr hc))]
      by_cases h50 : 2 ^ 50 < poolSize password ^ password.length
      · rw [if_pos h50, if_pos (k50.mp h50)]
      · rw [if_neg h50, if_neg (fun hc => h50 (k50.mpr hc))]

/-- Clamping to `[0, 100]` keeps a score in `[0, 100]`. -/
theorem score_clamped (x : Int) :
    0 ≤ max 0 (min 100 x) ∧ max 0 (min 100 x) ≤ 100 :=
  ⟨le_max_left 0 _, max_le (by norm_num) (min_le_left 100 x)⟩

/-! ### Claims -/

/-- C1 (counterexample): on a 200 response whose body is a line without a
`:` separator, `check_pwned_api` does not return `(false, 0)`: the tuple
unpacking raises a `ValueError`, which the `except requests.RequestException`
clause does not catch, so the exception propagates to the caller. -/
theorem check_pwned_api_raises_on_malformed_line :
    check_pwned_api "password" (.resp 200 "NOCOLON") =
        .error (.valueError "not enough values to unpack (expected 2, got 1)") ∧
      check_pwned_api "password" (.resp 200 "NOCOLON") ≠ .ok (false, 0) := by
  have h : check_pwned_api "password" (.resp 200 "NOCOLON") =
      .error (.valueError "not enough values to unpack (expected 2, got 1)") := rfl
  exact ⟨h, by rw [h]; exact fun hx => Except.noConfusion hx⟩

/-- C1 (amended): `check_pwned_api` returns `(false, 0)` on a transport
failure or timeout (`requests.RequestException`) and on any non-200 status,
and returns normally on a 200 response whose every line is well formed; a
malformed line in a 200 body, however, raises `ValueError` to the caller
(see the counterexample). -/
theorem check_pwned_api_error_absorption (password : String) :
    check_pwned_api password .exc = .ok (false, 0) ∧
      (∀ status body, status ≠ 200 →
        check_pwned_api password (.resp status body) = .ok (false, 0)) ∧
      ∀ body, bodyOk body = true →
        (check_pwned_api password (.resp 200 body)).isOk = true := by
  refine ⟨rfl, ?_, ?_⟩
  · intro status body hs
    unfold check_pwned_api
    dsimp only
    rw [if_pos hs]
  · intro body hb
    unfold check_pwned_api
    dsimp only
    rw [if_neg (by simp : ¬(200 ≠ 200))]
    exact scanHashes_ok _ _ hb

/-- Witness for C1's amended theorem at concrete inputs. -/
theorem check_pwned_api_error_absorption_witness :
    check_pwned_api "abc" .exc = .ok (false, 0) ∧
      check_pwned_api "abc" (.resp 503 "anything") = .ok (false, 0) ∧
      (check_pwned_api "abc" (.resp 200 "AAAA:12")).isOk = true :=
  ⟨(check_pwned_api_error_absorption "abc").1,
    (check_pwned_api_error_absorption "abc").2.1 503 "anything" (by decide),
    (check_pwned_api_error_absorption "abc").2.2 "AAAA:12" (by decide)⟩

/-- C2: the outbound URL is a function of the first 5 uppercase-hex
characters of the SHA-1 of the UTF-8 encoded password alone: two passwords
whose hashes share that 5-character prefix produce identical requests. -/
theorem pwnedUrl_depends_only_on_hash_prefix (p1 p2 : String)
    (h : (sha1hex p1).data.take 5 = (sha1hex p2).data.take 5) :
    pwnedUrl p1 = pwnedUrl p2 := by
  unfold pwnedUrl
  rw [h]

set_option maxRecDepth 40000 in
/-- Witness for C2: `"406"` and `"678"` are distinct passwords whose SHA-1
digests share the prefix `B2029`, and their outbound requests coincide. -/
theorem pwnedUrl_prefix_collision_witness :
    ("406" : String) ≠ "678" ∧
      (sha1hex "406").data.take 5 = (sha1hex "678").data.take 5 ∧
      pwnedUrl "406" = pwnedUrl "678" :=
  ⟨by decide, by rfl, pwnedUrl_depends_only_on_hash_prefix "406" "678" (by rfl)⟩

/-- C3: for a non-empty password reported as breached with count `N`, the
report is the scored report with `breached = true`, its score is at most
20, and its first suggestion is exactly the breach warning mentioning `N`
data breaches (so it precedes any length or missing-class suggestion). -/
theorem breached_caps_score_and_prepends_warning (password : String)
    (count : Int) (hp : password ≠ "") :
    (∀ resp, check_pwned_api password resp = .ok (true, count) →
        analyze password resp = .ok (scoreReport password true count)) ∧
      (scoreReport password true count).score ≤ 20 ∧
      (scoreReport password true count).suggestions.head? =
        some (breachWarning count) := by
  refine ⟨?_, ?_, rfl⟩
  · intro resp hc
    unfold analyze
    rw [if_neg hp, hc]
    rfl
  · show max 0 (min 100 (min (baseScore password).1 20)) ≤ 20
    exact max_le (by norm_num)
      (le_trans (min_le_right 100 _) (min_le_right (baseScore password).1 20))

/-- Witness for C3 at password `"password"` with breach count 3. -/
theorem breached_caps_score_witness :
    (scoreReport "password" true 3).score ≤ 20 ∧
      (scoreReport "password" true 3).suggestions.head? =
        some (breachWarning 3) :=
  ⟨(breached_caps_score_and_prepends_warning "password" 3 (by decide)).2.1,
    (breached_caps_score_and_prepends_warning "password" 3 (by decide)).2.2⟩

/-- C4: for a config with at least one class selected and requested length
in `[8, 128]`, `generate` succeeds, the password has exactly the requested
length, and it contains at least one character of every selected class. -/
theorem generate_length_and_class_coverage (cfg : GenConfig) (rand : Nat → Nat)
    (h8 : 8 ≤ cfg.length) (h128 : cfg.length ≤ 128)
    (hflag : (cfg.uppercase || cfg.lowercase || cfg.numbers || cfg.symbols) = true) :
    (generate cfg rand).isOk = true ∧
      ∀ s, generate cfg rand = .ok s →
        (s.data.length : Int) = cfg.length ∧
          (cfg.lowercase = true → s.data.any pyIsLower = true) ∧
          (cfg.uppercase = true → s.data.any pyIsUpper = true) ∧
          (cfg.numbers = true → s.data.any pyIsDigit = true) ∧
          (cfg.symbols = true → s.data.any pyIsPunct = true) := by
  constructor
  · rw [generate_eq_fill cfg rand hflag]
    rfl
  · intro s hs
    have hclamp : clampedLength cfg = cfg.length := by
      unfold clampedLength
      rw [min_eq_right h128, max_eq_right h8]
    refine ⟨?_, ?_, ?_, ?_, ?_⟩
    · have hl := generate_data_length cfg rand s hs hflag
      rw [hclamp] at hl
      omega
    · exact fun h =>
        generate_any_of_req cfg rand s hs hflag _ (reqChars_any_lower cfg rand h)
    · exact fun h =>
        generate_any_of_req cfg rand s hs hflag _ (reqChars_any_upper cfg rand h)
    · exact fun h =>
        generate_any_of_req cfg rand s hs hflag _ (reqChars_any_digit cfg rand h)
    · exact fun h =>
        generate_any_of_req cfg rand s hs hflag _ (reqChars_any_punct cfg rand h)

/-- Witness for C4: length 12 with uppercase, lowercase and digits selected
and the all-zeros draw stream yields the 12-character `"A0aaaaaaaaaa"`,
which covers all three selected classes. -/
theorem generate_length_and_class_coverage_witness :
    (generate ⟨12, true, true, true, false⟩ (fun _ => 0)).isOk = true ∧
      ("A0aaaaaaaaaa".data.length : Int) = 12 ∧
      "A0aaaaaaaaaa".data.any pyIsLower = true ∧
      "A0aaaaaaaaaa".data.any pyIsUpper = true ∧
      "A0aaaaaaaaaa".data.any pyIsDigit = true := by
  have h := generate_length_and_class_coverage ⟨12, true, true, true, false⟩
    (fun _ => 0) (by decide) (by decide) rfl
  have h2 := h.2 "A0aaaaaaaaaa" (by rfl)
  exact ⟨h.1, h2.1, h2.2.1 rfl, h2.2.2.1 rfl, h2.2.2.2.1 rfl⟩

/-- C5: every report `analyze` returns has its score in `[0, 100]`. -/
theorem analyze_score_in_range (password : String) (resp : HttpResult)
    (r : Report) (h : analyze password resp = .ok r) :
    0 ≤ r.score ∧ r.score ≤ 100 := by
  unfold analyze at h
  by_cases hp : password = ""
  · rw [if_pos hp, Except.ok.injEq] at h
    subst h
    exact ⟨by decide, by decide⟩
  · rw [if_neg hp] at h
    cases hc : check_pwned_api password resp with
    | error e =>
      rw [hc] at h
      exact absurd h (by simp [Except.map])
    | ok bc =>
      rw [hc] at h
      dsimp only [Except.map] at h
      rw [Except.ok.injEq] at h
      subst h
      exact score_clamped _

/-- Witness for C5 at the empty password and a failed transport. -/
theorem analyze_score_in_range_witness :
    0 ≤ emptyReport.score ∧ emptyReport.score ≤ 100 :=
  analyze_score_in_range "" .exc emptyReport rfl

/-- C6: for every possible remote outcome — even one that would raise or
report a breach — analyzing the empty password short-circuits to the Empty
report: score 0, level `"Empty"`, entropy 0, not breached, count 0, no
suggestions; the breach lookup, the rubric and the Weak/Moderate/Strong
mapping are never consulted. -/
theorem analyze_empty_report (resp : HttpResult) :
    analyze "" resp = .ok ⟨0, "Empty", 0, false, 0, []⟩ := rfl

/-- C7: `generate` fails — with exactly the message
`"Select at least one character type"` and status 400 — when no class flag
is set, and succeeds (is `ok`) exactly when at least one flag is set. -/
theorem generate_invalid_config (cfg : GenConfig) (rand : Nat → Nat) :
    ((cfg.uppercase || cfg.lowercase || cfg.numbers || cfg.symbols) = false →
        generate cfg rand =
          .error { error := "Select at least one character type", status := 400 }) ∧
      (generate cfg rand).isOk =
        (cfg.uppercase || cfg.lowercase || cfg.numbers || cfg.symbols) := by
  constructor
  · intro h
    unfold generate
    rw [h]
    rfl
  · cases hflag : (cfg.uppercase || cfg.lowercase || cfg.numbers || cfg.symbols) with
    | false =>
      unfold generate
      rw [hflag]
      rfl
    | true =>
      rw [generate_eq_fill cfg rand hflag]
      rfl

/-- Witness for C7: the all-false config yields the 400 error; the all-true
config succeeds. -/
theorem generate_invalid_config_witness :
    generate ⟨16, false, false, false, false⟩ (fun _ => 0) =
        .error { error := "Select at least one character type", status := 400 } ∧
      (generate ⟨16, true, true, true, true⟩ (fun _ => 0)).isOk = true :=
  ⟨(generate_invalid_config ⟨16, false, false, false, false⟩ (fun _ => 0)).1 rfl,
    (generate_invalid_config ⟨16, true, true, true, true⟩ (fun _ => 0)).2⟩

/-- C8: `calculate_entropy` computes exactly the spec's formula:
`length × log2(pool)` with pool the sum of the sizes of the classes
present (26 + 26 + 10 + 32), and 0 when the pool is 0. -/
theorem calculate_entropy_matches_spec_formula (password : String) :
    calculate_entropy password = specEntropy password ∧
      (specPoolSize password = 0 → calculate_entropy password = 0) := by
  have hpool : poolSize password = specPoolSize password := by
    unfold poolSize specPoolSize
    rw [punctuationChars_length]
  constructor
  · unfold calculate_entropy specEntropy
    rw [hpool]
  · intro h0
    unfold calculate_entropy
    rw [hpool, if_pos h0]

/-- Witness for C8 at the single-space password, whose spec pool is 0. -/
theorem calculate_entropy_matches_spec_formula_witness :
    specPoolSize " " = 0 ∧ calculate_entropy " " = 0 :=
  ⟨by decide, (calculate_entropy_matches_spec_formula " ").2 (by decide)⟩

/-- C9 (counterexample): the non-empty password `" "` (a single space) is
assigned no character class, its pool is 0, and the pool-is-0 branch of
`calculate_entropy` is taken. -/
theorem pool_zero_reachable_counterexample :
    (" " : String) ≠ "" ∧ poolSize " " = 0 ∧ calculate_entropy " " = 0 := by
  refine ⟨by decide, by decide, ?_⟩
  unfold calculate_entropy
  rw [if_pos (by decide : poolSize " " = 0)]

/-- C9 (amended): the detected pool is zero exactly when no character of
the password is lowercase, uppercase, a digit, or a punctuation character —
which non-empty passwords (such as `" "`) can satisfy, making the pool-is-0
entropy branch reachable; whenever the pool is zero the entropy is 0. -/
theorem pool_zero_characterization (password : String) :
    (poolSize password = 0 ↔
        (password.data.any pyIsLower = false ∧
          password.data.any pyIsUpper = false ∧
          password.data.any pyIsDigit = false ∧
          password.data.any pyIsPunct = false)) ∧
      (poolSize password = 0 → calculate_entropy password = 0) := by
  constructor
  · unfold poolSize
    cases h1 : password.data.any pyIsLower <;>
      cases h2 : password.data.any pyIsUpper <;>
      cases h3 : password.data.any pyIsDigit <;>
      cases h4 : password.data.any pyIsPunct <;>
      simp [punctuationChars_length]
  · intro h0
    unfold calculate_entropy
    rw [if_pos h0]

/-- Witness for C9's amended theorem at the single-space password. -/
theorem pool_zero_characterization_witness :
    poolSize " " = 0 ∧ calculate_entropy " " = 0 :=
  ⟨by decide, (pool_zero_characterization " ").2 (by decide)⟩

/-- C10: after clamping to `[8, 128]`, the at most 4 mandatory characters
never reach the clamped length, so `remaining_length` is never negative —
the truncation branch is unreachable — and every generated password
contains a character of each selected class. -/
theorem truncation_branch_unreachable (cfg : GenConfig) (rand : Nat → Nat) :
    ((reqChars cfg rand).length : Int) < clampedLength cfg ∧
      ¬remainingLength cfg rand < 0 ∧
      ∀ s, generate cfg rand = .ok s →
        (cfg.lowercase = true → s.data.any pyIsLower = true) ∧
          (cfg.uppercase = true → s.data.any pyIsUpper = true) ∧
          (cfg.numbers = true → s.data.any pyIsDigit = true) ∧
          (cfg.symbols = true → s.data.any pyIsPunct = true) := by
  refine ⟨?_, not_lt.mpr (remainingLength_nonneg cfg rand), ?_⟩
  · have h1 := reqChars_length_le cfg rand
    have h2 := (clampedLength_bounds cfg).1
    omega
  · intro s hs
    by_cases hflag : (cfg.uppercase || cfg.lowercase || cfg.numbers || cfg.symbols) = true
    · refine ⟨?_, ?_, ?_, ?_⟩
      · exact fun h =>
          generate_any_of_req cfg rand s hs hflag _ (reqChars_any_lower cfg rand h)
      · exact fun h =>
          generate_any_of_req cfg rand s hs hflag _ (reqChars_any_upper cfg rand h)
      · exact fun h =>
          generate_any_of_req cfg rand s hs hflag _ (reqChars_any_digit cfg rand h)
      · exact fun h =>
          generate_any_of_req cfg rand s hs hflag _ (reqChars_any_punct cfg rand h)
    · exfalso
      rw [Bool.not_eq_true] at hflag
      have := (generate_invalid_config cfg rand).1 hflag
      rw [this] at hs
      exact Except.noConfusion hs

/-- Witness for C10: requested length 3 (clamped to 8) with only symbols
selected and the all-zeros draw stream yields `"!!!!!!!!"`. -/
theorem truncation_branch_unreachable_witness :
    0 ≤ remainingLength ⟨3, false, false, false, true⟩ (fun _ => 0) ∧
      ((reqChars ⟨3, false, false, false, true⟩ (fun _ => 0)).length : Int) <
        clampedLength ⟨3, false, false, false, true⟩ ∧
      "!!!!!!!!".data.any pyIsPunct = true := by
  have h := truncation_branch_unreachable ⟨3, false, false, false, true⟩ (fun _ => 0)
  exact ⟨not_lt.mp h.2.1, h.1, (h.2.2 "!!!!!!!!" (by rfl)).2.2.2 rfl⟩

end PassInsight
